import Mathlib

set_option maxRecDepth 40000
set_option maxHeartbeats 4000000

/-- Machine registers declared by the x64 register set (`x64::regs`). -/
inductive Reg
  | RAX | RBX | RCX | RDX | RBP | RSI | RDI | RSP
  | R8 | R9 | R10 | R11 | R12 | R13 | R14 | R15
  | CF | OF | ZF | SF
  | XMM0 | XMM1 | XMM2 | XMM3 | XMM4 | XMM5 | XMM6 | XMM7
  deriving DecidableEq, Repr, Inhabited

/-- Generic operation tags (`actions::Generic`); widths (`Bits = u8`) are carried as `Nat`. -/
inductive Generic
  | Store (input memSize : Nat)
  | Load (out memSize : Nat)
  | OverflowSigned
  | OverflowUnsigned
  | AddWithCarry (b : Nat)
  | Add (b : Nat)
  | AddWithCarryOverflowS (b : Nat)
  | AddWithCarryOverflowU (b : Nat)
  | AddOverflowS (b : Nat)
  | AddOverflowU (b : Nat)
  | AddFp (b : Nat)
  | And (b : Nat)
  | PackedAnd (b : Nat)
  | ShiftLOverflow (b : Nat)
  | ShiftArithR (b : Nat)
  | ShiftArithRUnderflowS (b : Nat)
  | ShiftLogicalR (b : Nat)
  | ShiftLogicalRUnderflowU (b : Nat)
  | DivFp (b : Nat)
  | MaxFp (b : Nat)
  | MinFp (b : Nat)
  | MulFp (b : Nat)
  | SMul (b : Nat)
  | UMul (b : Nat)
  | Or (b : Nat)
  | PackedOr (b : Nat)
  | Xor (b : Nat)
  | PackedXor (b : Nat)
  | ShiftL (b : Nat)
  | SqrtFp (b : Nat)
  | SubWithCarry (b : Nat)
  | Sub (b : Nat)
  | SubWithCarryOverflowS (b : Nat)
  | SubWithCarryOverflowU (b : Nat)
  | SubOverflowS (b : Nat)
  | SubOverflowU (b : Nat)
  | SubFp (b : Nat)
  | Move (b : Nat)
  | IsZero
  | IsNonZero
  | LtZero
  | Clear
  | MulTrunc (b : Nat)
  | Undefined (b : Nat)
  deriving DecidableEq, Repr, Inhabited

/-- Constraint carried by a parameter step: a register class, a specific
register, or an immediate of a given bit width. -/
inductive ParamKind
  | regClass (c : List Reg)
  | specific (r : Reg)
  | immediate (bits : Nat)
  deriving DecidableEq, Repr, Inhabited

/-- One step of an instruction form: a parameter slot binding a fresh template
variable, an action producing a fresh template variable, an action writing into
an already-declared template variable (a variant set's shared output), or an
action writing into a concrete register (an incidental effect). -/
inductive Step
  | param (v : Nat) (p : ParamKind)
  | action (v : Nat) (op : Generic) (inputs : List Nat)
  | actionIntoVar (v : Nat) (op : Generic) (inputs : List Nat)
  | actionIntoReg (r : Reg) (op : Generic) (inputs : List Nat)
  deriving DecidableEq, Repr, Inhabited

/-- One alternative step-sequence of a variant set. -/
structure Alt where
  steps : List Step
  eqs : List (Nat × Nat)
  deriving DecidableEq, Repr, Inhabited

/-- A closed set of alternative step-sequences all feeding the shared output
variables `outs` (used for addressing modes). -/
structure VariantSet where
  outs : List Nat
  alts : List Alt
  deriving DecidableEq, Repr, Inhabited

/-- A named instruction form: its steps, equality constraints, and variant sets. -/
structure InstrDef where
  name : String
  steps : List Step
  eqs : List (Nat × Nat)
  variants : List VariantSet
  deriving DecidableEq, Repr, Inhabited

/-- State of the per-form instruction builder (`InstrBuilder`): a fresh template
variable counter plus the steps, equality constraints and variant sets declared
so far. -/
structure BState where
  fresh : Nat
  steps : List Step
  eqs : List (Nat × Nat)
  variants : List VariantSet
  deriving DecidableEq, Repr, Inhabited

/-- State of a variant-alternative sub-builder: it shares the fresh counter with
the enclosing form but collects its own steps and equality constraints. -/
structure AltState where
  fresh : Nat
  steps : List Step
  eqs : List (Nat × Nat)
  deriving DecidableEq, Repr, Inhabited

/-- Declare a parameter step (`InstrBuilder::param`): allocates a fresh template
variable constrained by `p`. -/
def bparam (p : ParamKind) (s : BState) : Nat × BState :=
  (s.fresh, { s with fresh := s.fresh + 1, steps := s.steps ++ [Step.param s.fresh p] })

/-- Declare an action step (`InstrBuilder::action`): allocates a fresh template
variable holding the operation's output. -/
def baction (op : Generic) (inputs : List Nat) (s : BState) : Nat × BState :=
  (s.fresh, { s with fresh := s.fresh + 1, steps := s.steps ++ [Step.action s.fresh op inputs] })

/-- Declare an action step writing into a concrete register
(`InstrBuilder::action_into` with a register destination). -/
def bactionIntoReg (r : Reg) (op : Generic) (inputs : List Nat) (s : BState) : BState :=
  { s with steps := s.steps ++ [Step.actionIntoReg r op inputs] }

/-- Declare an action step writing into an existing template variable
(`InstrBuilder::action_into` with a variant output destination). -/
def bactionIntoVar (v : Nat) (op : Generic) (inputs : List Nat) (s : BState) : BState :=
  { s with steps := s.steps ++ [Step.actionIntoVar v op inputs] }

/-- Record an equality constraint between two template variables (`InstrBuilder::eq`). -/
def beq (a b : Nat) (s : BState) : BState :=
  { s with eqs := s.eqs ++ [(a, b)] }

/-- Parameter step inside a variant alternative. -/
def aparam (p : ParamKind) (a : AltState) : Nat × AltState :=
  (a.fresh, { a with fresh := a.fresh + 1, steps := a.steps ++ [Step.param a.fresh p] })

/-- Action step inside a variant alternative. -/
def aaction (op : Generic) (inputs : List Nat) (a : AltState) : Nat × AltState :=
  (a.fresh, { a with fresh := a.fresh + 1, steps := a.steps ++ [Step.action a.fresh op inputs] })

/-- Action step inside a variant alternative writing into a shared variant output. -/
def aactionIntoVar (v : Nat) (op : Generic) (inputs : List Nat) (a : AltState) : AltState :=
  { a with steps := a.steps ++ [Step.actionIntoVar v op inputs] }

/-- Equality constraint inside a variant alternative. -/
def aeq (x y : Nat) (a : AltState) : AltState :=
  { a with eqs := a.eqs ++ [(x, y)] }

/-- Fresh alternative sub-builder sharing the enclosing form's counter. -/
def altStart (fresh : Nat) : AltState :=
  { fresh := fresh, steps := [], eqs := [] }

/-- The integer register class `INT_REG` of `x64::spec` (exactly as declared:
`R8` is absent). -/
def INT_REG : List Reg :=
  [Reg.RAX, Reg.RBX, Reg.RCX, Reg.RDX, Reg.RBP, Reg.RSI, Reg.RDI, Reg.RSP,
   Reg.R9, Reg.R10, Reg.R11, Reg.R12, Reg.R13, Reg.R14, Reg.R15]

/-- The floating-point register class `FP_REG` of `x64::spec`. -/
def FP_REG : List Reg :=
  [Reg.XMM0, Reg.XMM1, Reg.XMM2, Reg.XMM3, Reg.XMM4, Reg.XMM5, Reg.XMM6, Reg.XMM7]

/-- `MEM_OPERAND_SIZE` constant of `x64::spec`. -/
def MEM_OPERAND_SIZE : Nat := 32

/-- `InstrBuilderExt::memory`: declares one variant set with the five x64
addressing-mode alternatives, all feeding one shared output variable, and
returns that output. -/
def memory (s : BState) : Nat × BState :=
  let out := s.fresh
  -- bare integer-register address
  let a := altStart (s.fresh + 1)
  let (address, a) := aparam (ParamKind.regClass INT_REG) a
  let a1 := aeq out address a
  -- base + index
  let a := altStart a1.fresh
  let (base, a) := aparam (ParamKind.regClass INT_REG) a
  let (index, a) := aparam (ParamKind.regClass INT_REG) a
  let a2 := aactionIntoVar out (Generic.Add MEM_OPERAND_SIZE) [base, index] a
  -- base + displacement
  let a := altStart a2.fresh
  let (base, a) := aparam (ParamKind.regClass INT_REG) a
  let (disp, a) := aparam (ParamKind.immediate MEM_OPERAND_SIZE) a
  let a3 := aactionIntoVar out (Generic.Add MEM_OPERAND_SIZE) [base, disp] a
  -- base + index + displacement
  let a := altStart a3.fresh
  let (base, a) := aparam (ParamKind.regClass INT_REG) a
  let (index, a) := aparam (ParamKind.regClass INT_REG) a
  let (disp, a) := aparam (ParamKind.immediate MEM_OPERAND_SIZE) a
  let (intermediate, a) := aaction (Generic.Add MEM_OPERAND_SIZE) [base, index] a
  let a4 := aactionIntoVar out (Generic.Add MEM_OPERAND_SIZE) [intermediate, disp] a
  -- base + (index shifted by an immediate scale) + displacement
  let a := altStart a4.fresh
  let (base, a) := aparam (ParamKind.regClass INT_REG) a
  let (index, a) := aparam (ParamKind.regClass INT_REG) a
  let (scale, a) := aparam (ParamKind.immediate 3) a
  let (shiftedIndex, a) := aaction (Generic.ShiftL MEM_OPERAND_SIZE) [index, scale] a
  let (disp, a) := aparam (ParamKind.immediate MEM_OPERAND_SIZE) a
  let (intermediate, a) := aaction (Generic.Add MEM_OPERAND_SIZE) [base, shiftedIndex] a
  let a5 := aactionIntoVar out (Generic.Add MEM_OPERAND_SIZE) [intermediate, disp] a
  (out,
    { fresh := a5.fresh, steps := s.steps, eqs := s.eqs,
      variants := s.variants ++
        [{ outs := [out],
           alts := [{ steps := a1.steps, eqs := a1.eqs },
                    { steps := a2.steps, eqs := a2.eqs },
                    { steps := a3.steps, eqs := a3.eqs },
                    { steps := a4.steps, eqs := a4.eqs },
                    { steps := a5.steps, eqs := a5.eqs }] }] })

/-- `InstrBuilderExt::arith`: the operation itself plus the four incidental
flag-effect action steps into CF, OF, ZF, SF. -/
def arith (op overflow_s overflow_u : Generic) (left right : Nat) (s : BState) : Nat × BState :=
  let (out, s) := baction op [left, right] s
  let s := bactionIntoReg Reg.CF overflow_u [out] s
  let s := bactionIntoReg Reg.OF overflow_s [out] s
  let s := bactionIntoReg Reg.ZF Generic.IsZero [out] s
  let s := bactionIntoReg Reg.SF Generic.LtZero [out] s
  (out, s)

/-- `InstrBuilderExt::arith_carry`: like `arith` but consuming CF as an extra
parameter input. -/
def arith_carry (op overflow_s overflow_u : Generic) (left right : Nat) (s : BState) :
    Nat × BState :=
  let (carry, s) := bparam (ParamKind.specific Reg.CF) s
  let (out, s) := baction op [left, right, carry] s
  let s := bactionIntoReg Reg.CF overflow_u [out] s
  let s := bactionIntoReg Reg.OF overflow_s [out] s
  let s := bactionIntoReg Reg.ZF Generic.IsZero [out] s
  let s := bactionIntoReg Reg.SF Generic.LtZero [out] s
  (out, s)

/-- `InstrBuilderExt::arith_logical`: the operation plus Clear into CF and OF,
IsZero into ZF, LtZero into SF. -/
def arith_logical (op : Generic) (left right : Nat) (s : BState) : Nat × BState :=
  let (out, s) := baction op [left, right] s
  let s := bactionIntoReg Reg.CF Generic.Clear [] s
  let s := bactionIntoReg Reg.OF Generic.Clear [] s
  let s := bactionIntoReg Reg.ZF Generic.IsZero [out] s
  let s := bactionIntoReg Reg.SF Generic.LtZero [out] s
  (out, s)

/-- `InstrBuilderExt::arith_fp`: the bare operation, no incidental effects. -/
def arith_fp (op : Generic) (left right : Nat) (s : BState) : Nat × BState :=
  baction op [left, right] s

/-- `InstrBuilderExt::move_action`: the bare move operation. -/
def move_action (op : Generic) (left right : Nat) (s : BState) : Nat × BState :=
  baction op [left, right] s

/-- `InstrBuilderExt::integer_smul`: the multiply plus CF and OF effects and
Undefined into ZF and SF. -/
def integer_smul (op : Generic) (size : Nat) (cf_action of_action : Generic)
    (left right : Nat) (s : BState) : Nat × BState :=
  let (out, s) := baction op [left, right] s
  let s := bactionIntoReg Reg.CF cf_action [out] s
  let s := bactionIntoReg Reg.OF of_action [out] s
  let s := bactionIntoReg Reg.ZF (Generic.Undefined size) [out] s
  let s := bactionIntoReg Reg.SF (Generic.Undefined size) [out] s
  (out, s)

/-- `InstrBuilderExt::integer_umul`: the multiply constrained to RAX via a
specific-register parameter and an equality, plus CF/OF effects, Undefined into
ZF and SF, and Undefined into RDX. -/
def integer_umul (op : Generic) (size : Nat) (cf_action of_action : Generic)
    (left right : Nat) (s : BState) : Nat × BState :=
  let (out, s) := baction op [left, right] s
  let (dest, s) := bparam (ParamKind.specific Reg.RAX) s
  let s := beq dest out s
  let s := bactionIntoReg Reg.CF cf_action [out] s
  let s := bactionIntoReg Reg.OF of_action [out] s
  let s := bactionIntoReg Reg.ZF (Generic.Undefined size) [out] s
  let s := bactionIntoReg Reg.SF (Generic.Undefined size) [out] s
  let s := bactionIntoReg Reg.RDX (Generic.Undefined size) [out] s
  (out, s)

/-- Empty per-form builder state. -/
def emptyB : BState :=
  { fresh := 0, steps := [], eqs := [], variants := [] }

/-- `MachineSpec::instr`: run a form body on a fresh builder and append the
completed form under `name`. -/
def instr (name : String) (body : BState → BState) (spec : List InstrDef) : List InstrDef :=
  let s := body emptyB
  spec ++ [{ name := name, steps := s.steps, eqs := s.eqs, variants := s.variants }]

/-- Fallible variant of `instr` for form bodies that can hit a build-time fatal
error; on error it reports the message together with the forms completed so far. -/
def instrE (name : String) (body : BState → Except String BState) (spec : List InstrDef) :
    Except (String × List InstrDef) (List InstrDef) :=
  match body emptyB with
  | Except.error e => Except.error (e, spec)
  | Except.ok s =>
    Except.ok (spec ++ [{ name := name, steps := s.steps, eqs := s.eqs, variants := s.variants }])

/-- Entry type of the five-name size tables: (size, rr, rm, mr, ri, mi). -/
def SizeEntry5 : Type := Nat × String × String × String × String × String

/-- `MachineSpecExt::arith_variants`: register-register, register-memory,
memory-register, register-immediate and memory-immediate forms for one
arithmetic operation at each listed size. -/
def arith_variants (op overflow_s overflow_u : Nat → Generic)
    (sizes : List SizeEntry5) (spec : List InstrDef) : List InstrDef :=
  sizes.foldl (fun spec entry =>
    match entry with
    | (size, rr_name, rm_name, mr_name, ri_name, mi_name) =>
      let opS := op size
      let osS := overflow_s size
      let ouS := overflow_u size
      let spec := instr rr_name (fun new =>
        let (left, new) := bparam (ParamKind.regClass INT_REG) new
        let (right, new) := bparam (ParamKind.regClass INT_REG) new
        let (out, new) := arith opS osS ouS left right new
        beq left out new) spec
      let spec := instr rm_name (fun new =>
        let (left, new) := bparam (ParamKind.regClass INT_REG) new
        let (right_addr, new) := memory new
        let (right, new) := baction (Generic.Load size MEM_OPERAND_SIZE) [right_addr] new
        let (out, new) := arith opS osS ouS left right new
        beq out left new) spec
      let spec := instr mr_name (fun new =>
        let (left_addr, new) := memory new
        let (right, new) := bparam (ParamKind.regClass INT_REG) new
        let (left, new) := baction (Generic.Load size MEM_OPERAND_SIZE) [left_addr] new
        let (out, new) := arith opS osS ouS left right new
        let (_, new) := baction (Generic.Store size MEM_OPERAND_SIZE) [out] new
        new) spec
      let spec := instr ri_name (fun new =>
        let (left, new) := bparam (ParamKind.regClass INT_REG) new
        let (right, new) := bparam (ParamKind.immediate 32) new
        let (out, new) := arith opS osS ouS left right new
        beq left out new) spec
      let spec := instr mi_name (fun new =>
        let (left_addr, new) := memory new
        let (left, new) := baction (Generic.Load size MEM_OPERAND_SIZE) [left_addr] new
        let (right, new) := bparam (ParamKind.immediate 32) new
        let (out, new) := arith opS osS ouS left right new
        let (_, new) := baction (Generic.Store size MEM_OPERAND_SIZE) [out] new
        new) spec
      spec) spec

/-- `MachineSpecExt::arith_variants_carry`: same shapes as `arith_variants` but
through `arith_carry`. -/
def arith_variants_carry (op overflow_s overflow_u : Nat → Generic)
    (sizes : List SizeEntry5) (spec : List InstrDef) : List InstrDef :=
  sizes.foldl (fun spec entry =>
    match entry with
    | (size, rr_name, rm_name, mr_name, ri_name, mi_name) =>
      let opS := op size
      let osS := overflow_s size
      let ouS := overflow_u size
      let spec := instr rr_name (fun new =>
        let (left, new) := bparam (ParamKind.regClass INT_REG) new
        let (right, new) := bparam (ParamKind.regClass INT_REG) new
        let (out, new) := arith_carry opS osS ouS left right new
        beq left out new) spec
      let spec := instr rm_name (fun new =>
        let (left, new) := bparam (ParamKind.regClass INT_REG) new
        let (right_addr, new) := memory new
        let (right, new) := baction (Generic.Load size MEM_OPERAND_SIZE) [right_addr] new
        let (out, new) := arith_carry opS osS ouS left right new
        beq out left new) spec
      let spec := instr mr_name (fun new =>
        let (left_addr, new) := memory new
        let (right, new) := bparam (ParamKind.regClass INT_REG) new
        let (left, new) := baction (Generic.Load size MEM_OPERAND_SIZE) [left_addr] new
        let (out, new) := arith_carry opS osS ouS left right new
        let (_, new) := baction (Generic.Store size MEM_OPERAND_SIZE) [out] new
        new) spec
      let spec := instr ri_name (fun new =>
        let (left, new) := bparam (ParamKind.regClass INT_REG) new
        let (right, new) := bparam (ParamKind.immediate 32) new
        let (out, new) := arith_carry opS osS ouS left right new
        beq left out new) spec
      let spec := instr mi_name (fun new =>
        let (left_addr, new) := memory new
        let (left, new) := baction (Generic.Load size MEM_OPERAND_SIZE) [left_addr] new
        let (right, new) := bparam (ParamKind.immediate 32) new
        let (out, new) := arith_carry opS osS ouS left right new
        let (_, new) := baction (Generic.Store size MEM_OPERAND_SIZE) [out] new
        new) spec
      spec) spec

/-- `MachineSpecExt::arith_variants_logical`: same shapes through `arith_logical`. -/
def arith_variants_logical (op : Nat → Generic)
    (sizes : List SizeEntry5) (spec : List InstrDef) : List InstrDef :=
  sizes.foldl (fun spec entry =>
    match entry with
    | (size, rr_name, rm_name, mr_name, ri_name, mi_name) =>
      let opS := op size
      let spec := instr rr_name (fun new =>
        let (left, new) := bparam (ParamKind.regClass INT_REG) new
        let (right, new) := bparam (ParamKind.regClass INT_REG) new
        let (out, new) := arith_logical opS left right new
        beq left out new) spec
      let spec := instr rm_name (fun new =>
        let (left, new) := bparam (ParamKind.regClass INT_REG) new
        let (right_addr, new) := memory new
        let (right, new) := baction (Generic.Load size MEM_OPERAND_SIZE) [right_addr] new
        let (out, new) := arith_logical opS left right new
        beq out left new) spec
      let spec := instr mr_name (fun new =>
        let (left_addr, new) := memory new
        let (right, new) := bparam (ParamKind.regClass INT_REG) new
        let (left, new) := baction (Generic.Load size MEM_OPERAND_SIZE) [left_addr] new
        let (out, new) := arith_logical opS left right new
        let (_, new) := baction (Generic.Store size MEM_OPERAND_SIZE) [out] new
        new) spec
      let spec := instr ri_name (fun new =>
        let (left, new) := bparam (ParamKind.regClass INT_REG) new
        let (right, new) := bparam (ParamKind.immediate 32) new
        let (out, new) := arith_logical opS left right new
        beq left out new) spec
      let spec := instr mi_name (fun new =>
        let (left_addr, new) := memory new
        let (left, new) := baction (Generic.Load size MEM_OPERAND_SIZE) [left_addr] new
        let (right, new) := bparam (ParamKind.immediate 32) new
        let (out, new) := arith_logical opS left right new
        let (_, new) := baction (Generic.Store size MEM_OPERAND_SIZE) [out] new
        new) spec
      spec) spec

/-- `MachineSpecExt::arith_variants_fp`: register-register and register-memory
forms over the floating-point class. -/
def arith_variants_fp (op : Nat → Generic)
    (sizes : List (Nat × String × String)) (spec : List InstrDef) : List InstrDef :=
  sizes.foldl (fun spec entry =>
    match entry with
    | (size, rr_name, rm_name) =>
      let opS := op size
      let spec := instr rr_name (fun new =>
        let (left, new) := bparam (ParamKind.regClass FP_REG) new
        let (right, new) := bparam (ParamKind.regClass FP_REG) new
        let (out, new) := arith_fp opS left right new
        beq left out new) spec
      let spec := instr rm_name (fun new =>
        let (left, new) := bparam (ParamKind.regClass FP_REG) new
        let (right_addr, new) := memory new
        let (right, new) := baction (Generic.Load size MEM_OPERAND_SIZE) [right_addr] new
        let (out, new) := arith_fp opS left right new
        beq out left new) spec
      spec) spec

/-- `MachineSpecExt::move_packed_variants`: packed-move forms over the
floating-point class. -/
def move_packed_variants (op : Nat → Generic)
    (sizes : List (Nat × String × String × String)) (spec : List InstrDef) : List InstrDef :=
  sizes.foldl (fun spec entry =>
    match entry with
    | (size, rr_name, rm_name, mr_name) =>
      let opS := op size
      let spec := instr rr_name (fun new =>
        let (left, new) := bparam (ParamKind.regClass FP_REG) new
        let (right, new) := bparam (ParamKind.regClass FP_REG) new
        let (out, new) := move_action opS left right new
        beq left out new) spec
      let spec := instr rm_name (fun new =>
        let (left, new) := bparam (ParamKind.regClass FP_REG) new
        let (right_addr, new) := memory new
        let (right, new) := baction (Generic.Load size MEM_OPERAND_SIZE) [right_addr] new
        let (out, new) := move_action opS left right new
        beq out left new) spec
      let spec := instr mr_name (fun new =>
        let (left_addr, new) := memory new
        let (right, new) := bparam (ParamKind.regClass FP_REG) new
        let (left, new) := baction (Generic.Load size MEM_OPERAND_SIZE) [left_addr] new
        let (out, new) := move_action opS left right new
        let (_, new) := baction (Generic.Store size MEM_OPERAND_SIZE) [out] new
        new) spec
      spec) spec

/-- `MachineSpecExt::move_transfer_variants`: moves between the floating-point
and integer files (and memory). -/
def move_transfer_variants (op : Nat → Generic)
    (sizes : List (Nat × String × String × String × String)) (spec : List InstrDef) :
    List InstrDef :=
  sizes.foldl (fun spec entry =>
    match entry with
    | (size, mm_r_name, mm_mem_name, r_mm_name, mem_mm_name) =>
      let opS := op size
      let spec := instr mm_r_name (fun new =>
        let (left, new) := bparam (ParamKind.regClass FP_REG) new
        let (right, new) := bparam (ParamKind.regClass INT_REG) new
        let (out, new) := move_action opS left right new
        beq left out new) spec
      let spec := instr mm_mem_name (fun new =>
        let (left, new) := bparam (ParamKind.regClass FP_REG) new
        let (right_addr, new) := memory new
        let (right, new) := baction (Generic.Load size MEM_OPERAND_SIZE) [right_addr] new
        let (out, new) := move_action opS left right new
        beq out left new) spec
      let spec := instr r_mm_name (fun new =>
        let (left, new) := bparam (ParamKind.regClass INT_REG) new
        let (right, new) := bparam (ParamKind.regClass FP_REG) new
        let (out, new) := move_action opS left right new
        beq left out new) spec
      let spec := instr mem_mm_name (fun new =>
        let (left, new) := bparam (ParamKind.regClass FP_REG) new
        let (right_addr, new) := memory new
        let (right, new) := baction (Generic.Load size MEM_OPERAND_SIZE) [right_addr] new
        let (out, new) := move_action opS left right new
        beq left out new) spec
      spec) spec

/-- `MachineSpecExt::signed_multiply_variants`: imul forms; the immediate forms
have no read-modify-write equality constraint. -/
def signed_multiply_variants (op overflow carry : Nat → Generic)
    (sizes : List (Nat × String × String × String × String)) (spec : List InstrDef) :
    List InstrDef :=
  sizes.foldl (fun spec entry =>
    match entry with
    | (size, rr_name, rm_name, ri_name, mi_name) =>
      let opS := op size
      let smul_overflow := overflow size
      let smul_carry := carry size
      let spec := instr rr_name (fun new =>
        let (left, new) := bparam (ParamKind.regClass INT_REG) new
        let (right, new) := bparam (ParamKind.regClass INT_REG) new
        let (out, new) := integer_smul opS size smul_overflow smul_carry left right new
        beq left out new) spec
      let spec := instr rm_name (fun new =>
        let (left, new) := bparam (ParamKind.regClass INT_REG) new
        let (right_addr, new) := memory new
        let (right, new) := baction (Generic.Load size MEM_OPERAND_SIZE) [right_addr] new
        let (out, new) := integer_smul opS size smul_overflow smul_carry left right new
        beq out left new) spec
      let spec := instr ri_name (fun new =>
        let (left, new) := bparam (ParamKind.regClass INT_REG) new
        let (right, new) := bparam (ParamKind.immediate 32) new
        let (_, new) := integer_smul opS size smul_overflow smul_carry left right new
        new) spec
      let spec := instr mi_name (fun new =>
        let (left_addr, new) := memory new
        let (left, new) := baction (Generic.Load size MEM_OPERAND_SIZE) [left_addr] new
        let (right, new) := bparam (ParamKind.immediate 32) new
        let (_, new) := integer_smul opS size smul_overflow smul_carry left right new
        new) spec
      spec) spec

/-- `MachineSpecExt::arith_variants_shift`: shift forms; the count operand is
the specific register RCX or an 8-bit immediate. -/
def arith_variants_shift (op overflow carry : Nat → Generic)
    (sizes : List (Nat × String × String × String × String)) (spec : List InstrDef) :
    List InstrDef :=
  sizes.foldl (fun spec entry =>
    match entry with
    | (size, rr_name, mr_name, ri_name, mi_name) =>
      let opS := op size
      let shift_overflow := overflow size
      let shift_carry := carry size
      let spec := instr rr_name (fun new =>
        let (left, new) := bparam (ParamKind.regClass INT_REG) new
        let (right, new) := bparam (ParamKind.specific Reg.RCX) new
        let (out, new) := arith opS shift_overflow shift_carry left right new
        beq left out new) spec
      let spec := instr mr_name (fun new =>
        let (left_addr, new) := memory new
        let (right, new) := bparam (ParamKind.specific Reg.RCX) new
        let (left, new) := baction (Generic.Load size MEM_OPERAND_SIZE) [left_addr] new
        let (out, new) := arith opS shift_overflow shift_carry left right new
        let (_, new) := baction (Generic.Store size MEM_OPERAND_SIZE) [out] new
        new) spec
      let spec := instr ri_name (fun new =>
        let (left, new) := bparam (ParamKind.regClass INT_REG) new
        let (right, new) := bparam (ParamKind.immediate 8) new
        let (out, new) := arith opS shift_overflow shift_carry left right new
        beq left out new) spec
      let spec := instr mi_name (fun new =>
        let (left_addr, new) := memory new
        let (left, new) := baction (Generic.Load size MEM_OPERAND_SIZE) [left_addr] new
        let (right, new) := bparam (ParamKind.immediate 8) new
        let (out, new) := arith opS shift_overflow shift_carry left right new
        let (_, new) := baction (Generic.Store size MEM_OPERAND_SIZE) [out] new
        new) spec
      spec) spec

/-- Immediate parameter of the `move_variants` immediate forms: sizes 8, 16 and
32 take an immediate of the operand width, 64 takes a 32-bit immediate, and any
other size is a build-time fatal error. -/
def moveImm (size : Nat) (s : BState) : Except String (Nat × BState) :=
  if size = 8 ∨ size = 16 ∨ size = 32 then Except.ok (bparam (ParamKind.immediate size) s)
  else if size = 64 then Except.ok (bparam (ParamKind.immediate 32) s)
  else Except.error ("move_variants: Bad immediate size")

/-- `MachineSpecExt::move_variants`: mov forms; the immediate forms can abort
construction on an unsupported operand size. On error the partially built list
of completed forms is reported alongside the message. -/
def move_variants (op : Nat → Generic)
    (sizes : List SizeEntry5) (spec : List InstrDef) :
    Except (String × List InstrDef) (List InstrDef) :=
  sizes.foldl (fun acc entry =>
    match acc with
    | Except.error e => Except.error e
    | Except.ok spec =>
      match entry with
      | (size, rr_name, rm_name, mr_name, ri_name, mi_name) =>
        let opS := op size
        let spec := instr rr_name (fun new =>
          let (left, new) := bparam (ParamKind.regClass INT_REG) new
          let (right, new) := bparam (ParamKind.regClass INT_REG) new
          let (out, new) := move_action opS left right new
          beq left out new) spec
        let spec := instr rm_name (fun new =>
          let (left, new) := bparam (ParamKind.regClass INT_REG) new
          let (right_addr, new) := memory new
          let (right, new) := baction (Generic.Load size MEM_OPERAND_SIZE) [right_addr] new
          let (out, new) := move_action opS left right new
          beq out left new) spec
        let spec := instr mr_name (fun new =>
          let (left_addr, new) := memory new
          let (right, new) := bparam (ParamKind.regClass INT_REG) new
          let (left, new) := baction (Generic.Load size MEM_OPERAND_SIZE) [left_addr] new
          let (out, new) := move_action opS left right new
          let (_, new) := baction (Generic.Store size MEM_OPERAND_SIZE) [out] new
          new) spec
        match instrE ri_name (fun new =>
          let (left, new) := bparam (ParamKind.regClass INT_REG) new
          match moveImm size new with
          | Except.error e => Except.error e
          | Except.ok (right, new) =>
            let (out, new) := move_action opS left right new
            Except.ok (beq left out new)) spec with
        | Except.error e => Except.error e
        | Except.ok spec =>
          instrE mi_name (fun new =>
            let (left_addr, new) := memory new
            let (left, new) := baction (Generic.Load size MEM_OPERAND_SIZE) [left_addr] new
            match moveImm size new with
            | Except.error e => Except.error e
            | Except.ok (right, new) =>
              let (out, new) := move_action opS left right new
              let (_, new) := baction (Generic.Store size MEM_OPERAND_SIZE) [out] new
              Except.ok new) spec) (Except.ok spec)

/-- `x64::spec`: the full x64 machine-specification table; construction can
abort with a build-time fatal error from the mov immediate forms. -/
def x64specE : Except (String × List InstrDef) (List InstrDef) :=
  let spec : List InstrDef := []
  let spec := arith_variants Generic.Add Generic.AddOverflowS Generic.AddOverflowU
    [(32, "add r32, r32", "add r32, m32", "add m32, r32", "add r32, i32", "add m32, i32"),
     (64, "add r64, r64", "add r64, m64", "add m64, r64", "add r64, i32", "add m64, i32")] spec
  let spec := arith_variants_carry Generic.AddWithCarry Generic.AddWithCarryOverflowS
    Generic.AddWithCarryOverflowU
    [(32, "adc r32, r32", "adc r32, m32", "adc m32, r32", "adc r32, i32", "adc m32, i32"),
     (64, "adc r64, r64", "adc r64, m64", "adc m64, r64", "adc r64, i32", "adc m64, i32")] spec
  let spec := arith_variants_fp Generic.AddFp
    [(32, "addss r32, r32", "addss r32, m32"),
     (64, "addsd r64, r64", "addsd r64, m64")] spec
  let spec := arith_variants_logical Generic.And
    [(32, "and r32, r32", "and r32, m32", "and m32, r32", "and r32, i32", "and m32, i32"),
     (64, "and r64, r64", "and r64, m64", "and m64, r64", "and r64, i32", "and m64, i32")] spec
  let spec := arith_variants_fp Generic.PackedAnd
    [(32, "andps r128, r128", "andps r128, m128"),
     (64, "andpd r128, r128", "andpd r128, m128")] spec
  let spec := arith_variants_fp Generic.PackedOr
    [(32, "orps r128, r128", "orps r128, m128"),
     (64, "orpd r128, r128", "orpd r128, m128")] spec
  let spec := arith_variants_fp Generic.PackedXor
    [(32, "xorps r128, r128", "xorps r128, m128"),
     (64, "xorpd r128, r128", "xorpd r128, m128")] spec
  let spec := arith_variants_fp Generic.DivFp
    [(32, "divss r32, r32", "divss r32, m32"),
     (64, "divsd r64, r64", "divsd r64, m64")] spec
  let spec := arith_variants_fp Generic.MaxFp
    [(32, "maxss r32, r32", "maxss r32, m32"),
     (64, "maxsd r64, r64", "maxsd r64, m64")] spec
  let spec := arith_variants_fp Generic.MinFp
    [(32, "minss r32, r32", "minss r32, m32"),
     (64, "minsd r64, r64", "minsd r64, m64")] spec
  let spec := arith_variants_fp Generic.MulFp
    [(32, "mulss r32, r32", "mulss r32, m32"),
     (64, "mulsd r64, r64", "mulsd r64, m64")] spec
  let spec := arith_variants_fp Generic.SqrtFp
    [(32, "sqrtss r32, r32", "sqrtss r32, m32"),
     (64, "sqrtsd r64, r64", "sqrtsd r64, m64")] spec
  let spec := arith_variants_logical Generic.Or
    [(32, "or r32, r32", "or r32, m32", "or m32, r32", "or r32, i32", "or m32, i32"),
     (64, "or r64, r64", "or r64, m64", "or m64, r64", "or r64, i32", "or m64, i32")] spec
  let spec := arith_variants_logical Generic.Xor
    [(32, "xor r32, r32", "xor r32, m32", "xor m32, r32", "xor r32, i32", "xor m32, i32"),
     (64, "xor r64, r64", "xor r64, m64", "xor m64, r64", "xor r64, i32", "xor m64, i32")] spec
  let spec := arith_variants Generic.Sub Generic.SubOverflowS Generic.SubOverflowU
    [(32, "sub r32, r32", "sub r32, m32", "sub m32, r32", "sub r32, i32", "sub m32, i32"),
     (64, "sub r64, r64", "sub r64, m64", "sub m64, r64", "sub r64, i32", "sub m64, i32")] spec
  let spec := arith_variants_carry Generic.SubWithCarry Generic.SubWithCarryOverflowS
    Generic.SubWithCarryOverflowU
    [(32, "sbb r32, r32", "sbb r32, m32", "sbb m32, r32", "sbb r32, i32", "sbb m32, i32"),
     (64, "sbb r64, r64", "sbb r64, m64", "sbb m64, r64", "sbb r64, i32", "sbb m64, i32")] spec
  let spec := arith_variants_fp Generic.SubFp
    [(32, "subss r32, r32", "subss r32, m32"),
     (64, "subsd r64, r64", "subsd r64, m64")] spec
  let spec := arith_variants_shift Generic.ShiftArithR Generic.Undefined
    Generic.ShiftArithRUnderflowS
    [(32, "sar r32, cl", "sar m32, cl", "sar r32, i8", "sar m32, i8"),
     (64, "sar r64, cl", "sar m64, cl", "sar r64, i8", "sar m64, i8")] spec
  let spec := arith_variants_shift Generic.ShiftL Generic.Undefined Generic.ShiftLOverflow
    [(32, "shl r32, cl", "shl m32, cl", "shl r32, i8", "shl m32, i8"),
     (64, "shl r64, cl", "shl m64, cl", "shl r64, i8", "shl m64, i8")] spec
  let spec := arith_variants_shift Generic.ShiftLogicalR Generic.Undefined
    Generic.ShiftLogicalRUnderflowU
    [(32, "shr r32, cl", "shr m32, cl", "shr r32, i8", "shr m32, i8"),
     (64, "shr r64, cl", "shr m64, cl", "shr r64, i8", "shr m64, i8")] spec
  let spec := signed_multiply_variants Generic.SMul Generic.MulTrunc Generic.MulTrunc
    [(32, "imul r32, r32", "imul r32, m32", "imul r32, r32, imm32", "imul r32, m32, imm32"),
     (64, "imul r64, r64", "imul r64, m64", "imul r64, r64, imm32", "imul r64, m64, imm32")] spec
  match move_variants Generic.Move
    [(8, "mov r8, r8", "mov r8, m8", "mov m8, r8", "mov r8, i8", "mov m8, i8"),
     (16, "mov r16, r16", "mov r16, m16", "mov m16, r16", "mov r16, i16", "mov m16, i16"),
     (32, "mov r32, r32", "mov r32, m32", "mov m32, r32", "mov r32, i32", "mov m32, i32"),
     (64, "mov r64, r64", "mov r64, m64", "mov m64, r64", "mov r64, i32", "mov m64, i32")]
    spec with
  | Except.error e => Except.error e
  | Except.ok spec =>
    let spec := move_transfer_variants Generic.Move
      [(32, "movd f32, r32", "movd f32, m32", "movd r32, f32", "movd m32, f32"),
       (64, "movq f64, r64", "movq f64, m64", "movq r64, f64", "movq m64, f64")] spec
    let spec := move_packed_variants Generic.Move
      [(32, "movaps f128, f128", "movaps f128, m128", "movaps m128, f128"),
       (64, "movapd f128, f128", "movapd f128, m128", "movapd m128, f128")] spec
    let spec := instr ("mul r32") (fun new =>
      let (left, new) := bparam (ParamKind.regClass INT_REG) new
      let (right, new) := bparam (ParamKind.regClass INT_REG) new
      let (_, new) :=
        integer_umul (Generic.UMul 32) 32 Generic.IsNonZero Generic.IsNonZero left right new
      new) spec
    let spec := instr ("mul m32") (fun new =>
      let (left, new) := bparam (ParamKind.regClass INT_REG) new
      let (right_addr, new) := memory new
      let (right, new) := baction (Generic.Load 32 MEM_OPERAND_SIZE) [right_addr] new
      let (_, new) :=
        integer_umul (Generic.UMul 32) 32 Generic.IsNonZero Generic.IsNonZero left right new
      new) spec
    let spec := instr ("mul r64") (fun new =>
      let (left, new) := bparam (ParamKind.regClass INT_REG) new
      let (right, new) := bparam (ParamKind.regClass INT_REG) new
      let (_, new) :=
        integer_umul (Generic.UMul 64) 64 Generic.IsNonZero Generic.IsNonZero left right new
      new) spec
    let spec := instr ("mul m64") (fun new =>
      let (left, new) := bparam (ParamKind.regClass INT_REG) new
      let (right_addr, new) := memory new
      let (right, new) := baction (Generic.Load 64 MEM_OPERAND_SIZE) [right_addr] new
      let (_, new) :=
        integer_umul (Generic.UMul 64) 64 Generic.IsNonZero Generic.IsNonZero left right new
      new) spec
    let spec := instr ("cmp r32, r32") (fun new =>
      let (left, new) := bparam (ParamKind.regClass INT_REG) new
      let (right, new) := bparam (ParamKind.regClass INT_REG) new
      let (_, new) :=
        arith (Generic.Sub 32) (Generic.SubOverflowS 32) (Generic.SubOverflowU 32) left right new
      new) spec
    let spec := instr ("cmp r32, m32") (fun new =>
      let (left, new) := bparam (ParamKind.regClass INT_REG) new
      let (right_addr, new) := memory new
      let (right, new) := baction (Generic.Load 32 MEM_OPERAND_SIZE) [right_addr] new
      let (_, new) :=
        arith (Generic.Sub 32) (Generic.SubOverflowS 32) (Generic.SubOverflowU 32) left right new
      new) spec
    let spec := instr ("cmp m32, r32") (fun new =>
      let (left_addr, new) := memory new
      let (left, new) := baction (Generic.Load 32 MEM_OPERAND_SIZE) [left_addr] new
      let (right, new) := bparam (ParamKind.regClass INT_REG) new
      let (_, new) :=
        arith (Generic.Sub 32) (Generic.SubOverflowS 32) (Generic.SubOverflowU 32) left right new
      new) spec
    Except.ok spec

/-- The x64 table as a plain list of forms (empty if construction aborted; the
theorems establish that it does not abort). -/
def x64spec : List InstrDef :=
  match x64specE with
  | Except.ok s => s
  | Except.error _ => []

/-- Operation tag of a step, if the step is an action step. -/
def stepOp : Step → Option Generic
  | Step.param _ _ => none
  | Step.action _ op _ => some op
  | Step.actionIntoVar _ op _ => some op
  | Step.actionIntoReg _ op _ => some op

/-- Parameter constraint of a step, if the step is a parameter step. -/
def stepParamKind : Step → Option ParamKind
  | Step.param _ p => some p
  | _ => none

/-- All operation tags mentioned by a form's action steps, variant alternatives
included. -/
def formOps (d : InstrDef) : List Generic :=
  (d.steps.filterMap stepOp) ++
    ((d.variants.map (fun vs =>
      (vs.alts.map (fun a => a.steps.filterMap stepOp)).flatten)).flatten)

/-- All parameter constraints declared by a form, variant alternatives included. -/
def formParams (d : InstrDef) : List ParamKind :=
  (d.steps.filterMap stepParamKind) ++
    ((d.variants.map (fun vs =>
      (vs.alts.map (fun a => a.steps.filterMap stepParamKind)).flatten)).flatten)

/-- Index of a `Generic` value's constructor (operation tag, width ignored). -/
def ctorIdx : Generic → Nat
  | Generic.Store _ _ => 0
  | Generic.Load _ _ => 1
  | Generic.OverflowSigned => 2
  | Generic.OverflowUnsigned => 3
  | Generic.AddWithCarry _ => 4
  | Generic.Add _ => 5
  | Generic.AddWithCarryOverflowS _ => 6
  | Generic.AddWithCarryOverflowU _ => 7
  | Generic.AddOverflowS _ => 8
  | Generic.AddOverflowU _ => 9
  | Generic.AddFp _ => 10
  | Generic.And _ => 11
  | Generic.PackedAnd _ => 12
  | Generic.ShiftLOverflow _ => 13
  | Generic.ShiftArithR _ => 14
  | Generic.ShiftArithRUnderflowS _ => 15
  | Generic.ShiftLogicalR _ => 16
  | Generic.ShiftLogicalRUnderflowU _ => 17
  | Generic.DivFp _ => 18
  | Generic.MaxFp _ => 19
  | Generic.MinFp _ => 20
  | Generic.MulFp _ => 21
  | Generic.SMul _ => 22
  | Generic.UMul _ => 23
  | Generic.Or _ => 24
  | Generic.PackedOr _ => 25
  | Generic.Xor _ => 26
  | Generic.PackedXor _ => 27
  | Generic.ShiftL _ => 28
  | Generic.SqrtFp _ => 29
  | Generic.SubWithCarry _ => 30
  | Generic.Sub _ => 31
  | Generic.SubWithCarryOverflowS _ => 32
  | Generic.SubWithCarryOverflowU _ => 33
  | Generic.SubOverflowS _ => 34
  | Generic.SubOverflowU _ => 35
  | Generic.SubFp _ => 36
  | Generic.Move _ => 37
  | Generic.IsZero => 38
  | Generic.IsNonZero => 39
  | Generic.LtZero => 40
  | Generic.Clear => 41
  | Generic.MulTrunc _ => 42
  | Generic.Undefined _ => 43

/-- Modelled from the spec: the query/match engine (the `machine` module) is not
under src; per the stepwise candidate lookup of the matching algorithm, a Low IR
stream of exactly one instruction with operation tag `g` can be matched only by
a candidate form containing an action step tagged `g`, and succeeds when such a
form exists in the table. -/
def singleOpRealizable (g : Generic) : Bool :=
  x64spec.any (fun d => (formOps d).contains g)

/-- Constructor indices of every operation tag mentioned anywhere in the x64
table, in table order. -/
def specCtorList : List Nat :=
  (x64spec.map (fun d => (formOps d).map ctorIdx)).flatten

/-- First parameter step's template variable of a form (its left operand). -/
def leftParamVar (d : InstrDef) : Option Nat :=
  (d.steps.filterMap (fun st => match st with
    | Step.param v _ => some v
    | _ => none)).head?

/-- Template variable produced by a form's first `action` step (its primary
operation output). -/
def primaryActionVar (d : InstrDef) : Option Nat :=
  (d.steps.filterMap (fun st => match st with
    | Step.action v _ _ => some v
    | _ => none)).head?

/-- Whether a form carries an equality constraint pairing its primary action
output with its left operand parameter (the read-modify-write constraint). -/
def rmwEq (d : InstrDef) : Bool :=
  match leftParamVar d, primaryActionVar d with
  | some l, some o => d.eqs.contains (l, o) || d.eqs.contains (o, l)
  | _, _ => false

/-- The register-register forms of the arithmetic, carry-arithmetic, logical and
move families of the x64 table. -/
def rrNames : List String :=
  ["add r32, r32", "add r64, r64", "adc r32, r32", "adc r64, r64",
   "and r32, r32", "and r64, r64", "or r32, r32", "or r64, r64",
   "xor r32, r32", "xor r64, r64", "sub r32, r32", "sub r64, r64",
   "sbb r32, r32", "sbb r64, r64",
   "mov r8, r8", "mov r16, r16", "mov r32, r32", "mov r64, r64"]

/-- Bit widths of a form's top-level immediate parameter slots (variant
alternatives excluded: displacement and scale immediates inside an addressing
variant are not operand slots of the form). -/
def topImmBits (d : InstrDef) : List Nat :=
  d.steps.filterMap (fun st => match st with
    | Step.param _ (ParamKind.immediate b) => some b
    | _ => none)

/-- The immediate-operand forms of the arithmetic, carry-arithmetic, logical,
signed-multiply and move families, each paired with its expected immediate
width. -/
def immWidthTable : List (String × Nat) :=
  [("add r32, i32", 32), ("add m32, i32", 32), ("add r64, i32", 32), ("add m64, i32", 32),
   ("adc r32, i32", 32), ("adc m32, i32", 32), ("adc r64, i32", 32), ("adc m64, i32", 32),
   ("and r32, i32", 32), ("and m32, i32", 32), ("and r64, i32", 32), ("and m64, i32", 32),
   ("or r32, i32", 32), ("or m32, i32", 32), ("or r64, i32", 32), ("or m64, i32", 32),
   ("xor r32, i32", 32), ("xor m32, i32", 32), ("xor r64, i32", 32), ("xor m64, i32", 32),
   ("sub r32, i32", 32), ("sub m32, i32", 32), ("sub r64, i32", 32), ("sub m64, i32", 32),
   ("sbb r32, i32", 32), ("sbb m32, i32", 32), ("sbb r64, i32", 32), ("sbb m64, i32", 32),
   ("imul r32, r32, imm32", 32), ("imul r32, m32, imm32", 32),
   ("imul r64, r64, imm32", 32), ("imul r64, m64, imm32", 32),
   ("mov r8, i8", 8), ("mov m8, i8", 8), ("mov r16, i16", 16), ("mov m16, i16", 16),
   ("mov r32, i32", 32), ("mov m32, i32", 32), ("mov r64, i32", 32), ("mov m64, i32", 32)]

/-- Checks that a form is an unsigned-multiply form of the given width: its
UMul output is tied to a specific-register RAX parameter by an equality
constraint, CF and OF receive IsNonZero of the result, ZF and SF receive
Undefined, and RDX receives Undefined. -/
def umulFormOk (d : InstrDef) (size : Nat) : Bool :=
  match (d.steps.filterMap (fun st => match st with
      | Step.action v (Generic.UMul b) _ => if b == size then some v else none
      | _ => none)).head? with
  | none => false
  | some o =>
    (d.steps.any (fun st => match st with
      | Step.param v (ParamKind.specific Reg.RAX) =>
        d.eqs.contains (v, o) || d.eqs.contains (o, v)
      | _ => false)) &&
    d.steps.contains (Step.actionIntoReg Reg.CF Generic.IsNonZero [o]) &&
    d.steps.contains (Step.actionIntoReg Reg.OF Generic.IsNonZero [o]) &&
    d.steps.contains (Step.actionIntoReg Reg.ZF (Generic.Undefined size) [o]) &&
    d.steps.contains (Step.actionIntoReg Reg.SF (Generic.Undefined size) [o]) &&
    d.steps.contains (Step.actionIntoReg Reg.RDX (Generic.Undefined size) [o])

/-- The form of the x64 table with the given name (forms are uniquely named). -/
def findForm (name : String) : InstrDef :=
  ((x64spec.filter (fun d => d.name == name)).head?).getD default

/-- Forms completed before a build-time fatal error, as reported by the
fallible builders. -/
def errForms : Except (String × List InstrDef) (List InstrDef) → List InstrDef
  | Except.error (_, l) => l
  | Except.ok _ => []

/-- The variant set that `memory` declares when the enclosing form's fresh
counter stands at `n`: one shared output (variable `n`) fed by exactly five
alternatives — bare register, base+index, base+displacement,
base+index+displacement, and base+(index shifted by a 3-bit scale)+displacement,
built from 32-bit Add and ShiftL action steps. -/
def memVariantSpec (n : Nat) : VariantSet :=
  { outs := [n],
    alts :=
      [{ steps := [Step.param (n+1) (ParamKind.regClass INT_REG)],
         eqs := [(n, n+1)] },
       { steps := [Step.param (n+2) (ParamKind.regClass INT_REG),
                   Step.param (n+3) (ParamKind.regClass INT_REG),
                   Step.actionIntoVar n (Generic.Add 32) [n+2, n+3]],
         eqs := [] },
       { steps := [Step.param (n+4) (ParamKind.regClass INT_REG),
                   Step.param (n+5) (ParamKind.immediate 32),
                   Step.actionIntoVar n (Generic.Add 32) [n+4, n+5]],
         eqs := [] },
       { steps := [Step.param (n+6) (ParamKind.regClass INT_REG),
                   Step.param (n+7) (ParamKind.regClass INT_REG),
                   Step.param (n+8) (ParamKind.immediate 32),
                   Step.action (n+9) (Generic.Add 32) [n+6, n+7],
                   Step.actionIntoVar n (Generic.Add 32) [n+9, n+8]],
         eqs := [] },
       { steps := [Step.param (n+10) (ParamKind.regClass INT_REG),
                   Step.param (n+11) (ParamKind.regClass INT_REG),
                   Step.param (n+12) (ParamKind.immediate 3),
                   Step.action (n+13) (Generic.ShiftL 32) [n+11, n+12],
                   Step.param (n+14) (ParamKind.immediate 32),
                   Step.action (n+15) (Generic.Add 32) [n+10, n+13],
                   Step.actionIntoVar n (Generic.Add 32) [n+15, n+14]],
         eqs := [] }] }

/-- Modelled from the spec: the byte-level encoder is an external collaborator
(the `machine` module carrying it is not under src). Per the external-interface
contract, `encode(form-name, args)` returns a byte sequence whose size is
determined solely by the form name, independent of the argument values — the
size-stability invariant checked at specification build time. -/
structure Encoder where
  size : String → Nat
  encode : String → List Nat → List Nat
  encode_size : ∀ f args, (encode f args).length = size f

/-- Modelled from the spec: emitting a form whose target is not yet known
writes the form's fixed-size placeholder, zero-filled, without calling the
encoder. -/
def placeholder (E : Encoder) (f : String) : List Nat :=
  List.replicate (E.size f) 0

/-- Modelled from the spec: when the target becomes known, the recorded byte
range is overwritten in place by re-invoking the encoder with the complete
arguments. -/
def patchAt (buf : List Nat) (off : Nat) (bytes : List Nat) : List Nat :=
  buf.take off ++ bytes ++ buf.drop (off + bytes.length)

/-- Taking exactly the first list's length from an append returns the first list. -/
theorem take_append_len {α : Type} (l₁ l₂ : List α) : (l₁ ++ l₂).take l₁.length = l₁ := by
  induction l₁ with
  | nil => rfl
  | cons a t ih => simp [ih]

/-- Dropping exactly the first list's length from an append returns the second list. -/
theorem drop_append_len {α : Type} (l₁ l₂ : List α) : (l₁ ++ l₂).drop l₁.length = l₂ := by
  induction l₁ with
  | nil => rfl
  | cons a t ih => simp [ih]

/-- Dropping the first list's length plus `n` from an append drops `n` from the
second list. -/
theorem drop_append_add {α : Type} (l₁ l₂ : List α) (n : Nat) :
    (l₁ ++ l₂).drop (l₁.length + n) = l₂.drop n := by
  induction l₁ with
  | nil => simp
  | cons a t ih => simp [Nat.succ_add, ih]

/-- C1 counterexample: no instruction form of the x64 table mentions the
OverflowSigned or OverflowUnsigned operation tags at all, so a Low IR stream of
exactly one instruction with either tag has no candidate form and matching
fails. -/
theorem c1_counterexample :
    singleOpRealizable Generic.OverflowSigned = false ∧
    singleOpRealizable Generic.OverflowUnsigned = false :=
  ⟨by decide, by decide⟩

/-- C1 (amended): for every generic operation tag declared in `actions::Generic`
other than OverflowSigned and OverflowUnsigned — each sampled here at the
widths the x64 table uses — at least one instruction form contains an action
step with that tag, so a single-instruction stream with such a tag has a
candidate form; the two exceptions appear in no form at all. -/
theorem c1_single_operation_floor :
    singleOpRealizable (Generic.Store 32 32) = true ∧
    singleOpRealizable (Generic.Load 32 32) = true ∧
    singleOpRealizable (Generic.AddWithCarry 32) = true ∧
    singleOpRealizable (Generic.Add 32) = true ∧
    singleOpRealizable (Generic.AddWithCarryOverflowS 32) = true ∧
    singleOpRealizable (Generic.AddWithCarryOverflowU 32) = true ∧
    singleOpRealizable (Generic.AddOverflowS 32) = true ∧
    singleOpRealizable (Generic.AddOverflowU 32) = true ∧
    singleOpRealizable (Generic.AddFp 32) = true ∧
    singleOpRealizable (Generic.And 32) = true ∧
    singleOpRealizable (Generic.PackedAnd 32) = true ∧
    singleOpRealizable (Generic.ShiftLOverflow 32) = true ∧
    singleOpRealizable (Generic.ShiftArithR 32) = true ∧
    singleOpRealizable (Generic.ShiftArithRUnderflowS 32) = true ∧
    singleOpRealizable (Generic.ShiftLogicalR 32) = true ∧
    singleOpRealizable (Generic.ShiftLogicalRUnderflowU 32) = true ∧
    singleOpRealizable (Generic.DivFp 32) = true ∧
    singleOpRealizable (Generic.MaxFp 32) = true ∧
    singleOpRealizable (Generic.MinFp 32) = true ∧
    singleOpRealizable (Generic.MulFp 32) = true ∧
    singleOpRealizable (Generic.SMul 32) = true ∧
    singleOpRealizable (Generic.UMul 32) = true ∧
    singleOpRealizable (Generic.Or 32) = true ∧
    singleOpRealizable (Generic.PackedOr 32) = true ∧
    singleOpRealizable (Generic.Xor 32) = true ∧
    singleOpRealizable (Generic.PackedXor 32) = true ∧
    singleOpRealizable (Generic.ShiftL 32) = true ∧
    singleOpRealizable (Generic.SqrtFp 32) = true ∧
    singleOpRealizable (Generic.SubWithCarry 32) = true ∧
    singleOpRealizable (Generic.Sub 32) = true ∧
    singleOpRealizable (Generic.SubWithCarryOverflowS 32) = true ∧
    singleOpRealizable (Generic.SubWithCarryOverflowU 32) = true ∧
    singleOpRealizable (Generic.SubOverflowS 32) = true ∧
    singleOpRealizable (Generic.SubOverflowU 32) = true ∧
    singleOpRealizable (Generic.SubFp 32) = true ∧
    singleOpRealizable (Generic.Move 32) = true ∧
    singleOpRealizable (Generic.IsZero) = true ∧
    singleOpRealizable (Generic.IsNonZero) = true ∧
    singleOpRealizable (Generic.LtZero) = true ∧
    singleOpRealizable (Generic.Clear) = true ∧
    singleOpRealizable (Generic.MulTrunc 32) = true ∧
    singleOpRealizable (Generic.Undefined 32) = true ∧
    singleOpRealizable Generic.OverflowSigned = false ∧
    singleOpRealizable Generic.OverflowUnsigned = false := by
  decide

/-- C2: `memory` declares exactly one variant set with the five addressing-mode
alternatives described by `memVariantSpec`, all feeding the single shared
output variable it returns; and every variant set occurring anywhere in the x64
table is exactly such a memory-operand variant set. -/
theorem c2_memory_operand_variants :
    (∀ s : BState, memory s =
      (s.fresh,
        { fresh := s.fresh + 16, steps := s.steps, eqs := s.eqs,
          variants := s.variants ++ [memVariantSpec s.fresh] })) ∧
    (x64spec.all (fun d => d.variants.all
      (fun vs => vs == memVariantSpec (vs.outs.headD 0))) = true) :=
  ⟨fun s => rfl, by decide⟩

/-- C3 counterexample: calling `move_variants` with operand size 7 does abort
construction with the bad-immediate-size error, but only after three
instruction forms (the register-register, register-memory and memory-register
forms of that entry) have already been completed — not before any form is
completed. -/
theorem c3_counterexample :
    ((move_variants Generic.Move
        [(7, ("mov r7, r7"), ("mov r7, m7"), ("mov m7, r7"), ("mov r7, i7"), ("mov m7, i7"))]
        []).isOk = false) ∧
    ((errForms (move_variants Generic.Move
        [(7, ("mov r7, r7"), ("mov r7, m7"), ("mov m7, r7"), ("mov r7, i7"), ("mov m7, i7"))]
        [])).length = 3) :=
  ⟨by decide, by decide⟩

/-- C3 (amended): declaring a move-family entry with an operand size outside
8, 16, 32, 64 is a build-time fatal error raised while building the
register-immediate form: the rr, rm and mr forms of the entry are completed
first, the immediate forms never complete, and the specification as a whole is
never produced; every size used by `x64::spec` avoids the branch, so the x64
table builds successfully. -/
theorem c3_bad_immediate_size_aborts (op : Nat → Generic) (size : Nat)
    (rr rm mr ri mi : String) (spec : List InstrDef)
    (h8 : size ≠ 8) (h16 : size ≠ 16) (h32 : size ≠ 32) (h64 : size ≠ 64) :
    ((move_variants op [(size, rr, rm, mr, ri, mi)] spec).isOk = false) ∧
    ((errForms (move_variants op [(size, rr, rm, mr, ri, mi)] spec)).length
      = spec.length + 3) ∧
    x64specE.isOk = true := by
  have hImm : ∀ s : BState, moveImm size s =
      Except.error ("move_variants: Bad immediate size") := by
    intro s
    simp [moveImm, h8, h16, h32, h64]
  refine ⟨?_, ?_, by decide⟩
  · simp [move_variants, instrE, hImm, Except.isOk, Except.toBool]
  · simp [move_variants, instrE, hImm, errForms, instr]

/-- C3 witness: the amended theorem applied at size 7 with concrete names. -/
theorem c3_bad_immediate_size_aborts_witness :
    ((7 : Nat) ≠ 8 ∧ (7 : Nat) ≠ 16 ∧ (7 : Nat) ≠ 32 ∧ (7 : Nat) ≠ 64) ∧
    (((move_variants Generic.Move
        [(7, ("w rr"), ("w rm"), ("w mr"), ("w ri"), ("w mi"))] []).isOk = false) ∧
      ((errForms (move_variants Generic.Move
        [(7, ("w rr"), ("w rm"), ("w mr"), ("w ri"), ("w mi"))] [])).length
        = List.length ([] : List InstrDef) + 3) ∧
      x64specE.isOk = true) :=
  ⟨⟨by decide, by decide, by decide, by decide⟩,
    c3_bad_immediate_size_aborts Generic.Move 7 ("w rr") ("w rm") ("w mr") ("w ri") ("w mi") []
      (by decide) (by decide) (by decide) (by decide)⟩

/-- C4: `arith` and `arith_carry` declare exactly four extra action steps —
the unsigned-overflow argument into CF, the signed-overflow argument into OF,
IsZero of the result into ZF and LtZero of the result into SF — and
`arith_logical` declares Clear into CF and OF plus IsZero into ZF and LtZero
into SF; all as ordinary steps. Concretely, the add, shift and logical
register-register forms of the table consist of nothing but these steps. -/
theorem c4_flag_effect_steps :
    (∀ (op overflow_s overflow_u : Generic) (left right : Nat) (s : BState),
      arith op overflow_s overflow_u left right s =
        (s.fresh,
          { fresh := s.fresh + 1,
            steps := s.steps ++
              [Step.action s.fresh op [left, right],
               Step.actionIntoReg Reg.CF overflow_u [s.fresh],
               Step.actionIntoReg Reg.OF overflow_s [s.fresh],
               Step.actionIntoReg Reg.ZF Generic.IsZero [s.fresh],
               Step.actionIntoReg Reg.SF Generic.LtZero [s.fresh]],
            eqs := s.eqs, variants := s.variants })) ∧
    (∀ (op overflow_s overflow_u : Generic) (left right : Nat) (s : BState),
      arith_carry op overflow_s overflow_u left right s =
        (s.fresh + 1,
          { fresh := s.fresh + 2,
            steps := s.steps ++
              [Step.param s.fresh (ParamKind.specific Reg.CF),
               Step.action (s.fresh + 1) op [left, right, s.fresh],
               Step.actionIntoReg Reg.CF overflow_u [s.fresh + 1],
               Step.actionIntoReg Reg.OF overflow_s [s.fresh + 1],
               Step.actionIntoReg Reg.ZF Generic.IsZero [s.fresh + 1],
               Step.actionIntoReg Reg.SF Generic.LtZero [s.fresh + 1]],
            eqs := s.eqs, variants := s.variants })) ∧
    (∀ (op : Generic) (left right : Nat) (s : BState),
      arith_logical op left right s =
        (s.fresh,
          { fresh := s.fresh + 1,
            steps := s.steps ++
              [Step.action s.fresh op [left, right],
               Step.actionIntoReg Reg.CF Generic.Clear [],
               Step.actionIntoReg Reg.OF Generic.Clear [],
               Step.actionIntoReg Reg.ZF Generic.IsZero [s.fresh],
               Step.actionIntoReg Reg.SF Generic.LtZero [s.fresh]],
            eqs := s.eqs, variants := s.variants })) ∧
    findForm ("add r32, r32") =
      { name := ("add r32, r32"),
        steps := [Step.param 0 (ParamKind.regClass INT_REG),
                  Step.param 1 (ParamKind.regClass INT_REG),
                  Step.action 2 (Generic.Add 32) [0, 1],
                  Step.actionIntoReg Reg.CF (Generic.AddOverflowU 32) [2],
                  Step.actionIntoReg Reg.OF (Generic.AddOverflowS 32) [2],
                  Step.actionIntoReg Reg.ZF Generic.IsZero [2],
                  Step.actionIntoReg Reg.SF Generic.LtZero [2]],
        eqs := [(0, 2)], variants := [] } ∧
    findForm ("shl r32, cl") =
      { name := ("shl r32, cl"),
        steps := [Step.param 0 (ParamKind.regClass INT_REG),
                  Step.param 1 (ParamKind.specific Reg.RCX),
                  Step.action 2 (Generic.ShiftL 32) [0, 1],
                  Step.actionIntoReg Reg.CF (Generic.ShiftLOverflow 32) [2],
                  Step.actionIntoReg Reg.OF (Generic.Undefined 32) [2],
                  Step.actionIntoReg Reg.ZF Generic.IsZero [2],
                  Step.actionIntoReg Reg.SF Generic.LtZero [2]],
        eqs := [(0, 2)], variants := [] } ∧
    findForm ("and r32, r32") =
      { name := ("and r32, r32"),
        steps := [Step.param 0 (ParamKind.regClass INT_REG),
                  Step.param 1 (ParamKind.regClass INT_REG),
                  Step.action 2 (Generic.And 32) [0, 1],
                  Step.actionIntoReg Reg.CF Generic.Clear [],
                  Step.actionIntoReg Reg.OF Generic.Clear [],
                  Step.actionIntoReg Reg.ZF Generic.IsZero [2],
                  Step.actionIntoReg Reg.SF Generic.LtZero [2]],
        eqs := [(0, 2)], variants := [] } := by
  refine ⟨?_, ?_, ?_, by decide, by decide, by decide⟩
  · intro op overflow_s overflow_u left right s
    simp [arith, baction, bactionIntoReg, List.append_assoc]
  · intro op overflow_s overflow_u left right s
    simp [arith_carry, bparam, baction, bactionIntoReg, List.append_assoc]
  · intro op left right s
    simp [arith_logical, baction, bactionIntoReg, List.append_assoc]

/-- C5: every register-register form of the arithmetic, carry-arithmetic,
logical and move families is present in the table and carries an equality
constraint pairing its primary action output with its left operand parameter
(the read-modify-write destination). -/
theorem c5_rmw_equality :
    (x64spec.all (fun d => !(rrNames.contains d.name) || rmwEq d) = true) ∧
    (x64spec.countP (fun d => rrNames.contains d.name) = rrNames.length) :=
  ⟨by decide, by decide⟩

/-- C6: the two register classes declared by the x64 specification are disjoint
— no register is a member of both INT_REG and FP_REG — and every register-class
parameter slot in the table uses one of these two classes. -/
theorem c6_reg_classes_disjoint :
    (INT_REG.all (fun r => !(FP_REG.contains r)) = true) ∧
    (FP_REG.all (fun r => !(INT_REG.contains r)) = true) ∧
    (x64spec.all (fun d => (formParams d).all (fun p => match p with
      | ParamKind.regClass c => c == INT_REG || c == FP_REG
      | _ => true)) = true) :=
  ⟨by decide, by decide, by decide⟩

/-- C7: encoding a form with a zero-filled placeholder and later overwriting
that byte range by re-invoking the encoder with the resolved arguments yields
exactly the bytes of encoding directly with the final arguments, the placeholder
has the same length as any encoding of the form, and the encoded length depends
only on the form name, never the argument values. -/
theorem c7_relocation_roundtrip (E : Encoder) (f : String) (args args2 : List Nat)
    (pre post : List Nat) :
    patchAt (pre ++ placeholder E f ++ post) pre.length (E.encode f args) =
      pre ++ E.encode f args ++ post ∧
    (placeholder E f).length = (E.encode f args).length ∧
    (E.encode f args).length = (E.encode f args2).length := by
  have hlen : (E.encode f args).length = E.size f := E.encode_size f args
  have hph : (placeholder E f).length = E.size f := by simp [placeholder]
  have henc : (E.encode f args).length = (placeholder E f).length := by rw [hlen, hph]
  refine ⟨?_, by rw [hph, hlen], by rw [hlen, E.encode_size f args2]⟩
  unfold patchAt
  rw [List.append_assoc pre (placeholder E f) post,
    take_append_len pre (placeholder E f ++ post),
    drop_append_add, henc, drop_append_len]

/-- C8: INT_REG has exactly 15 members, R8 is in neither INT_REG nor FP_REG,
and every register-class parameter slot anywhere in the x64 table (variant
alternatives included) names a class not containing R8 — so no class slot can
ever be satisfied by R8. -/
theorem c8_r8_excluded :
    INT_REG.length = 15 ∧
    INT_REG.contains Reg.R8 = false ∧
    FP_REG.contains Reg.R8 = false ∧
    (x64spec.all (fun d => (formParams d).all (fun p => match p with
      | ParamKind.regClass c => !(c.contains Reg.R8)
      | _ => true)) = true) :=
  ⟨by decide, by decide, by decide, by decide⟩

/-- C9: `integer_umul` ties its product output to a specific-register RAX
parameter by an equality constraint and declares IsNonZero into CF and OF and
Undefined into ZF, SF and RDX; all four unsigned-multiply forms of the table
satisfy this shape at their operand width. -/
theorem c9_umul_rax_and_clobbers :
    (∀ (op cf_action of_action : Generic) (size left right : Nat) (s : BState),
      integer_umul op size cf_action of_action left right s =
        (s.fresh,
          { fresh := s.fresh + 2,
            steps := s.steps ++
              [Step.action s.fresh op [left, right],
               Step.param (s.fresh + 1) (ParamKind.specific Reg.RAX),
               Step.actionIntoReg Reg.CF cf_action [s.fresh],
               Step.actionIntoReg Reg.OF of_action [s.fresh],
               Step.actionIntoReg Reg.ZF (Generic.Undefined size) [s.fresh],
               Step.actionIntoReg Reg.SF (Generic.Undefined size) [s.fresh],
               Step.actionIntoReg Reg.RDX (Generic.Undefined size) [s.fresh]],
            eqs := s.eqs ++ [(s.fresh + 1, s.fresh)],
            variants := s.variants })) ∧
    umulFormOk (findForm ("mul r32")) 32 = true ∧
    umulFormOk (findForm ("mul m32")) 32 = true ∧
    umulFormOk (findForm ("mul r64")) 64 = true ∧
    umulFormOk (findForm ("mul m64")) 64 = true := by
  refine ⟨?_, by decide, by decide, by decide, by decide⟩
  intro op cf_action of_action size left right s
  simp [integer_umul, baction, bparam, beq, bactionIntoReg, List.append_assoc]

/-- C10: every immediate-operand form of the arithmetic, carry-arithmetic,
logical and signed-multiply families declares exactly one top-level immediate
parameter of 32 bits regardless of operand size, and the mov immediate forms
declare the operand width at sizes 8, 16 and 32 but 32 bits at size 64. -/
theorem c10_immediate_widths :
    (x64spec.all (fun d =>
      match immWidthTable.find? (fun p => p.1 == d.name) with
      | some p => topImmBits d == [p.2]
      | none => true) = true) ∧
    (x64spec.countP (fun d => (immWidthTable.find? (fun p => p.1 == d.name)).isSome)
      = immWidthTable.length) :=
  ⟨by decide, by decide⟩
